import Mathlib

/-!
Shallow embedding of the token lifecycle and authenticated-request pipeline
of the TradeUnifox WhatsApp SDK: `BaseService` from `Whatsapp/core.py` and
`TokenManager` from `Whatsapp/token_manager.py`.

Time is modelled as Unix seconds (`Int`): `time.time()` in `core.py`, and
`datetime` instants in `token_manager.py` (a `timedelta(minutes=m)` is
`60 * m` seconds).  HTTP traffic is modelled by the outcome each call of the
`requests` library produces, supplied as an explicit argument; response
bodies are modelled already parsed, restricted to the keys the pipeline
reads.
-/

/-- Parsed JSON body of an HTTP response, restricted to the fields the token
pipeline reads via `data.get(...)`.  A missing key is `none`.  String fields
keep Python truthiness: `none` (missing / `None`) and `some ""` are falsy. -/
structure Body where
  token : Option String
  access_token : Option String
  auth_token : Option String
  key : Option String
  message : Option String
  expires_in : Option Int
  expires_in_minutes : Option Int
  has_token : Option Bool
  expires_at : Option Int
  deriving DecidableEq

/-- A body with every key absent. -/
def Body.empty : Body := ⟨none, none, none, none, none, none, none, none, none⟩

/-- Outcome of one underlying HTTP call made through the `requests` library:
either a response (status code plus parsed JSON body), or a raised
`requests.exceptions.RequestException` (DNS / connection / timeout failure,
i.e. no response was received). -/
inductive HttpOutcome where
  | response (status : Nat) (body : Body)
  | transportError (msg : String)
  deriving DecidableEq

/-- Python exceptions raised by the pipeline: the three SDK errors defined in
`Whatsapp/exceptions.py`, plus the `ValueError` and the re-raised
`requests.exceptions.RequestException` used by `TokenManager`. -/
inductive PyError where
  | authenticationError (msg : String)
  | apiError (msg : String)
  | networkError (msg : String)
  | valueError (msg : String)
  | requestException (msg : String)
  deriving DecidableEq

deriving instance DecidableEq for Except

/-- Is this a `NetworkError`? -/
def PyError.isNetwork : PyError → Bool
  | .networkError _ => true
  | _ => false

/-- Is this an `APIError`? -/
def PyError.isApi : PyError → Bool
  | .apiError _ => true
  | _ => false

/-- Is this an `AuthenticationError`? -/
def PyError.isAuth : PyError → Bool
  | .authenticationError _ => true
  | _ => false

/-- Does this fallible result end in an error satisfying `p`? -/
def errIs (p : PyError → Bool) : Except PyError α → Bool
  | .error e => p e
  | .ok _ => false

/-- Python truthiness of a `data.get(...)` string result: `None` (missing
key) and the empty string are falsy. -/
def truthyStr : Option String → Bool
  | none => false
  | some s => !(s == "")

/-- The Python chain `data.get(a) or data.get(b) or ...`: the first truthy
value, `none` when every link is falsy (an all-falsy chain evaluates to its
last, falsy value, which every caller treats exactly like a missing key). -/
def firstTruthy : List (Option String) → Option String
  | [] => none
  | x :: xs => if truthyStr x then x else firstTruthy xs

/-- `response.raise_for_status()` of the `requests` library raises
`HTTPError` (a `RequestException`) exactly for status codes in `[400, 600)`. -/
def raisesForStatus (status : Nat) : Bool :=
  decide (400 ≤ status ∧ status < 600)

/-- Mutable fields of `BaseService` (`core.py`, constructor lines 11-18)
touched by the token pipeline: the cached token (`self.token`, initially
`None`), its expiry as a Unix timestamp (`self.token_expiry`, initially
`0`), and the `auto_refresh` flag (default `True`). -/
structure BaseServiceState where
  token : Option String
  tokenExpiry : Int
  autoRefresh : Bool
  deriving DecidableEq

/-- `BaseService.authenticate` (`core.py` lines 20-44), given the current
time and the outcome of the POST to `/get-token`.  The Python method calls
`res.raise_for_status()` *before* reading the body, and its single handler
maps every `requests.exceptions.RequestException` — transport failures and
the `HTTPError` of a non-2xx status alike — to `NetworkError`.  Only a body
whose `token` key is truthy succeeds; the expiry is `time.time()` plus
`int(data.get("expires_in", 3600))` seconds.  On success it returns the
token and the updated service state; on failure the state is unchanged. -/
def BaseService.authenticate (st : BaseServiceState) (now : Int)
    (out : HttpOutcome) : Except PyError (BaseServiceState × String) :=
  match out with
  | .transportError e =>
      .error (.networkError ("Network error during authentication: " ++ e))
  | .response status body =>
      if raisesForStatus status then
        .error (.networkError
          ("Network error during authentication: HTTPError " ++ toString status))
      else
        if truthyStr body.token then
          let t := body.token.getD ""
          .ok ({ st with token := some t,
                         tokenExpiry := now + body.expires_in.getD 3600 }, t)
        else
          .error (.authenticationError (body.message.getD "Authentication failed"))

/-- The refresh test of `BaseService._ensure_token` (`core.py` line 47):
`not self.token or time.time() >= self.token_expiry`. -/
def BaseService.needsRefresh (st : BaseServiceState) (now : Int) : Bool :=
  !truthyStr st.token || decide (st.tokenExpiry ≤ now)

/-- Result of one logical `BaseService.request` call, instrumented with the
facts the claims quantify over: how many `authenticate` invocations happened
in the `_ensure_token` phase and in the 401-retry branch, and how many
underlying HTTP attempts were issued. -/
structure RequestResult where
  result : Except PyError Body
  ensureAuthCalls : Nat
  retryAuthCalls : Nat
  httpAttempts : Nat
  finalState : BaseServiceState
  deriving DecidableEq

/-- The `try` block of `BaseService.request` (`core.py` lines 55-83) after
`_ensure_token`: the first HTTP attempt has outcome `r1`; on a 401 status
with `auto_refresh` set, one `authenticate` call (outcome `retryOut`) and
one retried attempt `r2`; then `raise_for_status` and `response.json()`.
A `RequestException` raised inside the block (transport failure of either
attempt, or the `HTTPError` of `raise_for_status`) is caught and re-raised
as `APIError`; the SDK errors raised by `authenticate` are *not*
`RequestException`s and propagate unchanged. -/
def BaseService.requestBody (st : BaseServiceState) (now : Int)
    (retryOut r1 r2 : HttpOutcome) (ensureCalls : Nat) : RequestResult :=
  match r1 with
  | .transportError e =>
      ⟨.error (.apiError ("Request failed: " ++ e)), ensureCalls, 0, 1, st⟩
  | .response s1 b1 =>
      if s1 = 401 ∧ st.autoRefresh = true then
        match BaseService.authenticate st now retryOut with
        | .error e => ⟨.error e, ensureCalls, 1, 1, st⟩
        | .ok (st2, _) =>
            match r2 with
            | .transportError e =>
                ⟨.error (.apiError ("Request failed: " ++ e)), ensureCalls, 1, 2, st2⟩
            | .response s2 b2 =>
                if raisesForStatus s2 then
                  ⟨.error (.apiError ("Request failed: HTTPError " ++ toString s2)),
                    ensureCalls, 1, 2, st2⟩
                else
                  ⟨.ok b2, ensureCalls, 1, 2, st2⟩
      else
        if raisesForStatus s1 then
          ⟨.error (.apiError ("Request failed: HTTPError " ++ toString s1)),
            ensureCalls, 0, 1, st⟩
        else
          ⟨.ok b1, ensureCalls, 0, 1, st⟩

/-- `BaseService.request` (`core.py` lines 51-83): `_ensure_token` (which
authenticates with outcome `ensureOut` when the cached token is missing or
expired, propagating any failure), then the guarded attempt/retry block. -/
def BaseService.request (st : BaseServiceState) (now : Int)
    (ensureOut retryOut r1 r2 : HttpOutcome) : RequestResult :=
  if BaseService.needsRefresh st now then
    match BaseService.authenticate st now ensureOut with
    | .error e => ⟨.error e, 1, 0, 0, st⟩
    | .ok (st1, _) => BaseService.requestBody st1 now retryOut r1 r2 1
  else
    BaseService.requestBody st now retryOut r1 r2 0

/-- Mutable fields of `TokenManager` (`token_manager.py`, constructor lines
24-28): cached token (`self.token`) and its expiry instant
(`self.expires_at`, a `datetime` or `None`). -/
structure TokenManagerState where
  token : Option String
  expires_at : Option Int
  deriving DecidableEq

/-- The dictionary returned by a successful `TokenManager.generate_token`. -/
structure GenResult where
  token : String
  expires_in_minutes : Int
  expires_at : Int
  deriving DecidableEq

/-- `TokenManager.generate_token` (`token_manager.py` lines 43-99): POST to
`/get-token`; `raise_for_status` (its `HTTPError` is a `RequestException`
and the handler re-raises it unchanged); the token is extracted from the
alias chain `token or access_token or auth_token or key`; if none is truthy
it raises `ValueError("Token not found in API response")` (re-raised
unchanged by the second handler); otherwise the cache is set to the token
with expiry `datetime.now() + timedelta(minutes=data.get("expires_in_minutes", 60))`. -/
def TokenManager.generate_token (st : TokenManagerState) (now : Int)
    (out : HttpOutcome) : Except PyError (TokenManagerState × GenResult) :=
  match out with
  | .transportError e => .error (.requestException e)
  | .response status body =>
      if raisesForStatus status then
        .error (.requestException ("HTTPError " ++ toString status))
      else
        match firstTruthy [body.token, body.access_token, body.auth_token, body.key] with
        | none => .error (.valueError "Token not found in API response")
        | some t =>
            let m := body.expires_in_minutes.getD 60
            .ok ({ st with token := some t, expires_at := some (now + 60 * m) },
                 ⟨t, m, now + 60 * m⟩)

/-- The dictionary returned by `TokenManager.check_token_status`. -/
structure TokenStatus where
  has_token : Bool
  token : Option String
  expires_in_minutes : Int
  expires_at : Option Int
  error : Option String
  deriving DecidableEq

/-- `TokenManager.check_token_status` (`token_manager.py` lines 101-173):
POST to `/check-token`.  Every `RequestException` — transport failure or the
`HTTPError` of `raise_for_status` — is caught and turned into a returned
`has_token := false` dictionary carrying an `error` string, with the cached
state untouched (the method does not raise).  On a truthy `has_token` the
cache is updated when the server supplies an `expires_at` (remaining minutes
are `int(total_seconds / 60)`, clamped at `0`); with no `expires_at` the
cache is left untouched; on a falsy `has_token` the cache is cleared. -/
def TokenManager.check_token_status (st : TokenManagerState) (now : Int)
    (out : HttpOutcome) : TokenManagerState × TokenStatus :=
  match out with
  | .transportError e =>
      (st, ⟨false, none, 0, none, some e⟩)
  | .response status body =>
      if raisesForStatus status then
        (st, ⟨false, none, 0, none, some ("HTTPError " ++ toString status)⟩)
      else
        if body.has_token = some true then
          let tok := firstTruthy [body.token, body.access_token, body.auth_token, body.key]
          match body.expires_at with
          | some exp =>
              let remaining := exp - now
              let m := if 0 < remaining then remaining / 60 else 0
              (⟨tok, some exp⟩, ⟨true, tok, m, some exp, none⟩)
          | none =>
              (st, ⟨true, tok, 0, none, none⟩)
        else
          (⟨none, none⟩, ⟨false, none, 0, none, none⟩)

/-- `TokenManager.is_token_valid` (`token_manager.py` lines 208-212):
`False` when the cached token is falsy (`None` or `""`) or the cached expiry
is falsy (a `datetime` is always truthy, so this is `expires_at is None`);
otherwise `datetime.now() < self.expires_at`. -/
def TokenManager.is_token_valid (st : TokenManagerState) (now : Int) : Bool :=
  if !truthyStr st.token || st.expires_at.isNone then false
  else decide (now < st.expires_at.getD 0)

/-- A body whose only key is `token`. -/
def bodyWithToken (v : String) : Body := { Body.empty with token := some v }

/-- A body whose only key is `access_token`. -/
def bodyWithAccess (v : String) : Body := { Body.empty with access_token := some v }

/-- A body whose only key is `auth_token`. -/
def bodyWithAuthTok (v : String) : Body := { Body.empty with auth_token := some v }

/-- A body whose only key is `key`. -/
def bodyWithKey (v : String) : Body := { Body.empty with key := some v }

/-!
Interleaving model of `BaseService._ensure_token` (`core.py` lines 46-49)
for two concurrent callers against one client instance.  The Python body is
an unsynchronized check-then-act sequence, so each caller is a two-step
program: `checking` is before the validity test of line 47, `refreshing` is
the window between that test and the completion of the `authenticate()` call
(`authenticate` blocks on network I/O, which is precisely where another
thread can run), `done` is after.  The `authenticate` call itself is
modelled as atomically installing a fresh token with the default
3600-second validity and bumping a global invocation counter; modelling it
atomically only *removes* interleavings, so any racy schedule exhibited here
is available to the real code.
-/

/-- Program counter of one caller running `_ensure_token`. -/
inductive EnsurePc where
  | checking
  | refreshing
  | done
  deriving DecidableEq

/-- Shared service state plus the two callers' program counters and the
total number of `authenticate` invocations performed so far. -/
structure EnsureRun where
  svc : BaseServiceState
  pcA : EnsurePc
  pcB : EnsurePc
  authCalls : Nat
  deriving DecidableEq

/-- One step of one caller of `_ensure_token`: from `checking`, evaluate
line 47's test on the shared state; from `refreshing`, complete the
`authenticate()` call (install a fresh token, count the invocation). -/
def ensureStepOne (now : Int) (pc : EnsurePc) (st : BaseServiceState)
    (calls : Nat) : EnsurePc × BaseServiceState × Nat :=
  match pc with
  | .checking =>
      if BaseService.needsRefresh st now then (.refreshing, st, calls)
      else (.done, st, calls)
  | .refreshing =>
      (.done, { st with token := some "tok", tokenExpiry := now + 3600 }, calls + 1)
  | .done => (.done, st, calls)

/-- Scheduler step: `who = false` runs caller A, `who = true` runs caller B. -/
def ensureStep (now : Int) (r : EnsureRun) (who : Bool) : EnsureRun :=
  if who then
    match ensureStepOne now r.pcB r.svc r.authCalls with
    | (pc, st, calls) => ⟨st, r.pcA, pc, calls⟩
  else
    match ensureStepOne now r.pcA r.svc r.authCalls with
    | (pc, st, calls) => ⟨st, pc, r.pcB, calls⟩

/-- Run a whole schedule (a list of scheduler choices). -/
def ensureRunSched (now : Int) (r : EnsureRun) : List Bool → EnsureRun
  | [] => r
  | w :: ws => ensureRunSched now (ensureStep now r w) ws

/-- Both callers start at the check, over a freshly constructed client
(no cached token, expiry `0`, `auto_refresh` default `True`). -/
def initEnsureRun : EnsureRun := ⟨⟨none, 0, true⟩, .checking, .checking, 0⟩

/-- Steps still owed by a caller at this program point: used to bound the
number of `authenticate` invocations of a run. -/
def EnsurePc.pending : EnsurePc → Nat
  | .done => 0
  | _ => 1

/-!
The claims under test, stated exactly as written (the `claim*Stated`
propositions are refuted below where the code disagrees).
-/

/-- C1 as written: on *every* logical `request` call whose first HTTP
attempt returns status 401, the executor invokes `authenticate` exactly
once more and re-issues the call exactly once. -/
def claimC1Stated : Prop :=
  ∀ (st : BaseServiceState) (now : Int) (eo ro r2 : HttpOutcome) (b : Body),
    1 ≤ (BaseService.request st now eo ro (.response 401 b) r2).httpAttempts →
    (BaseService.request st now eo ro (.response 401 b) r2).retryAuthCalls = 1 ∧
    (BaseService.request st now eo ro (.response 401 b) r2).httpAttempts = 2

/-- C2 as written: a transport-level failure of the HTTP call inside
`request` surfaces as `NetworkError`. -/
def claimC2Stated : Prop :=
  ∀ (st : BaseServiceState) (now : Int) (eo ro r2 : HttpOutcome) (e : String),
    1 ≤ (BaseService.request st now eo ro (.transportError e) r2).httpAttempts →
    errIs PyError.isNetwork
      (BaseService.request st now eo ro (.transportError e) r2).result = true

/-- C3 as written: a 401 authentication response with the well-formed body
`{"message": "bad credentials"}` makes `authenticate` fail with
`AuthenticationError`. -/
def claimC3Stated : Prop :=
  ∀ (st : BaseServiceState) (now : Int) (b : Body),
    b.message = some "bad credentials" →
    errIs PyError.isAuth (BaseService.authenticate st now (.response 401 b)) = true

/-- C4 as written: a 2xx authentication response with none of the four
token fields makes both `TokenManager.generate_token` and
`BaseService.authenticate` fail with `AuthenticationError` carrying the
message "token not found in response". -/
def claimC4Stated : Prop :=
  ∀ (stT : TokenManagerState) (stB : BaseServiceState) (now : Int) (s : Nat)
    (b : Body), 200 ≤ s → s < 300 →
    firstTruthy [b.token, b.access_token, b.auth_token, b.key] = none →
    TokenManager.generate_token stT now (.response s b)
      = .error (.authenticationError "token not found in response") ∧
    BaseService.authenticate stB now (.response s b)
      = .error (.authenticationError "token not found in response")

/-- Did `generate_token` succeed with token value `v`? -/
def genOkWith (v : String)
    (r : Except PyError (TokenManagerState × GenResult)) : Bool :=
  match r with
  | .ok p => decide (p.2.token = v)
  | .error _ => false

/-- Did `BaseService.authenticate` succeed with token value `v`? -/
def authOkWith (v : String)
    (r : Except PyError (BaseServiceState × String)) : Bool :=
  match r with
  | .ok p => decide (p.2 = v)
  | .error _ => false

/-- C5 as written: each of the four alias fields alone, with a non-empty
value, is accepted by *both* `TokenManager.generate_token` and
`BaseService.authenticate`. -/
def claimC5Stated : Prop :=
  ∀ (stT : TokenManagerState) (stB : BaseServiceState) (now : Int)
    (v : String), v ≠ "" →
    (genOkWith v (TokenManager.generate_token stT now (.response 200 (bodyWithToken v))) &&
     genOkWith v (TokenManager.generate_token stT now (.response 200 (bodyWithAccess v))) &&
     genOkWith v (TokenManager.generate_token stT now (.response 200 (bodyWithAuthTok v))) &&
     genOkWith v (TokenManager.generate_token stT now (.response 200 (bodyWithKey v))) &&
     authOkWith v (BaseService.authenticate stB now (.response 200 (bodyWithToken v))) &&
     authOkWith v (BaseService.authenticate stB now (.response 200 (bodyWithAccess v))) &&
     authOkWith v (BaseService.authenticate stB now (.response 200 (bodyWithAuthTok v))) &&
     authOkWith v (BaseService.authenticate stB now (.response 200 (bodyWithKey v)))) = true

/-- C6 as written: every successful authentication computes the expiry as
the call time plus the server-supplied duration (default 60 minutes), and
that expiry is *strictly* greater than the call time. -/
def claimC6Stated : Prop :=
  ∀ (stT : TokenManagerState) (stB : BaseServiceState) (now : Int) (b : Body)
    (st2 : TokenManagerState) (r : GenResult) (st3 : BaseServiceState) (t : String),
    (TokenManager.generate_token stT now (.response 200 b) = .ok (st2, r) →
      st2.expires_at = some (now + 60 * b.expires_in_minutes.getD 60) ∧
      (∀ e, st2.expires_at = some e → now < e)) ∧
    (BaseService.authenticate stB now (.response 200 b) = .ok (st3, t) →
      st3.tokenExpiry = now + b.expires_in.getD 3600 ∧ now < st3.tokenExpiry)

/-- C8 as written (the refutable part): `check_token_status` never maps a
transport failure to a normally returned default "no token" dictionary — a
failure is propagated to the caller as a failed call. -/
def claimC8Stated : Prop :=
  ∀ (st : TokenManagerState) (now : Int) (e : String),
    ¬ ((TokenManager.check_token_status st now (.transportError e)).2.has_token = false ∧
       (TokenManager.check_token_status st now (.transportError e)).2.token = none ∧
       (TokenManager.check_token_status st now (.transportError e)).2.expires_in_minutes = 0)

/-- C9 as written: any complete interleaving of two `_ensure_token` callers
over a client with no valid token performs exactly one `authenticate`
invocation (single-flight). -/
def claimC9Stated : Prop :=
  ∀ (now : Int) (sched : List Bool),
    (ensureRunSched now initEnsureRun sched).pcA = EnsurePc.done →
    (ensureRunSched now initEnsureRun sched).pcB = EnsurePc.done →
    (ensureRunSched now initEnsureRun sched).authCalls = 1

/-- The number of `authenticate` invocations plus the steps still owed by
the two callers never increases along a step. -/
def EnsureRun.measure (r : EnsureRun) : Nat :=
  r.authCalls + r.pcA.pending + r.pcB.pending

/-!
Helper lemmas shared by the claim theorems.
-/

theorem authenticate_ok_autoRefresh {st st2 : BaseServiceState} {now : Int}
    {out : HttpOutcome} {t : String}
    (h : BaseService.authenticate st now out = .ok (st2, t)) :
    st2.autoRefresh = st.autoRefresh := by
  cases out with
  | transportError e => simp [BaseService.authenticate] at h
  | response s b =>
    by_cases hr : raisesForStatus s = true
    · simp [BaseService.authenticate, hr] at h
    · by_cases ht : truthyStr b.token = true
      · simp [BaseService.authenticate, hr, ht] at h
        obtain ⟨h1, h2⟩ := h
        rw [← h1]
      · simp [BaseService.authenticate, hr, ht] at h

theorem authenticate_error_kind {st : BaseServiceState} {now : Int}
    {out : HttpOutcome} {e : PyError}
    (h : BaseService.authenticate st now out = .error e) :
    (e.isNetwork || e.isAuth) = true := by
  cases out with
  | transportError m =>
    simp [BaseService.authenticate] at h
    rw [← h]
    rfl
  | response s b =>
    by_cases hr : raisesForStatus s = true
    · simp [BaseService.authenticate, hr] at h
      rw [← h]
      rfl
    · by_cases ht : truthyStr b.token = true
      · simp [BaseService.authenticate, hr, ht] at h
      · simp [BaseService.authenticate, hr, ht] at h
        rw [← h]
        rfl

theorem firstTruthy_head {x : Option String} {xs : List (Option String)}
    (h : firstTruthy (x :: xs) = none) : truthyStr x = false := by
  cases hx : truthyStr x with
  | false => rfl
  | true =>
    rw [firstTruthy, if_pos hx] at h
    rw [h] at hx
    simp [truthyStr] at hx

theorem requestBody_bounds (st : BaseServiceState) (now : Int)
    (ro r1 r2 : HttpOutcome) (k : Nat) :
    (BaseService.requestBody st now ro r1 r2 k).httpAttempts ≤ 2 ∧
    (BaseService.requestBody st now ro r1 r2 k).retryAuthCalls ≤ 1 := by
  cases r1 with
  | transportError e => simp [BaseService.requestBody]
  | response s1 b1 =>
    simp only [BaseService.requestBody]
    split
    · split
      · simp
      · split
        · simp
        · split <;> simp
    · split <;> simp

theorem requestBody_401 (st : BaseServiceState) (now : Int)
    (ro r2 : HttpOutcome) (b : Body) (k : Nat)
    (hauto : st.autoRefresh = true) :
    (BaseService.requestBody st now ro (.response 401 b) r2 k).retryAuthCalls = 1 ∧
    ((BaseService.requestBody st now ro (.response 401 b) r2 k).httpAttempts = 2 ∨
      ∃ e, (BaseService.requestBody st now ro (.response 401 b) r2 k).result = .error e ∧
        (e.isNetwork || e.isAuth) = true) ∧
    (∀ s2 b2, r2 = HttpOutcome.response s2 b2 → raisesForStatus s2 = true →
      (BaseService.requestBody st now ro (.response 401 b) r2 k).httpAttempts = 2 →
      ∃ m, (BaseService.requestBody st now ro (.response 401 b) r2 k).result
        = .error (.apiError m)) := by
  simp only [BaseService.requestBody]
  rw [if_pos (⟨trivial, hauto⟩ : True ∧ st.autoRefresh = true)]
  cases hA : BaseService.authenticate st now ro with
  | error e =>
    refine ⟨rfl, .inr ⟨e, rfl, authenticate_error_kind hA⟩, ?_⟩
    intro s2 b2 hr2 hrs hat
    simp at hat
  | ok p =>
    obtain ⟨st2, t⟩ := p
    cases r2 with
    | transportError e =>
      refine ⟨rfl, .inl rfl, ?_⟩
      intro s2 b2 hr2
      cases hr2
    | response s2 b2 =>
      refine ⟨?_, .inl ?_, ?_⟩
      · by_cases hrs : raisesForStatus s2 = true <;> simp [hrs]
      · by_cases hrs : raisesForStatus s2 = true <;> simp [hrs]
      · intro s2b b2b hr2 hrs2 hat
        cases hr2
        exact ⟨"Request failed: HTTPError " ++ toString s2, by simp [hrs2]⟩

theorem request_attempts_pos {st : BaseServiceState} {now : Int}
    {eo ro r1 r2 : HttpOutcome}
    (h : 1 ≤ (BaseService.request st now eo ro r1 r2).httpAttempts) :
    ∃ st1 k, st1.autoRefresh = st.autoRefresh ∧
      BaseService.request st now eo ro r1 r2
        = BaseService.requestBody st1 now ro r1 r2 k := by
  by_cases hn : BaseService.needsRefresh st now = true
  · rw [BaseService.request, if_pos hn] at h ⊢
    cases hA : BaseService.authenticate st now eo with
    | error e =>
      rw [hA] at h
      simp at h
    | ok p =>
      obtain ⟨st1, t⟩ := p
      exact ⟨st1, 1, authenticate_ok_autoRefresh hA, rfl⟩
  · rw [BaseService.request, if_neg hn] at h ⊢
    exact ⟨st, 0, rfl, rfl⟩

theorem request_bounds (st : BaseServiceState) (now : Int)
    (eo ro r1 r2 : HttpOutcome) :
    (BaseService.request st now eo ro r1 r2).httpAttempts ≤ 2 ∧
    (BaseService.request st now eo ro r1 r2).retryAuthCalls ≤ 1 := by
  by_cases hn : BaseService.needsRefresh st now = true
  · rw [BaseService.request, if_pos hn]
    cases hA : BaseService.authenticate st now eo with
    | error e => simp
    | ok p =>
      obtain ⟨st1, t⟩ := p
      exact requestBody_bounds st1 now ro r1 r2 1
  · rw [BaseService.request, if_neg hn]
    exact requestBody_bounds st now ro r1 r2 0

theorem ensureStepOne_calls (now : Int) (pc : EnsurePc) (st : BaseServiceState)
    (calls : Nat) :
    (ensureStepOne now pc st calls).2.2 + (ensureStepOne now pc st calls).1.pending
      ≤ calls + pc.pending := by
  cases pc with
  | checking =>
    simp only [ensureStepOne]
    split <;> simp [EnsurePc.pending]
  | refreshing => simp [ensureStepOne, EnsurePc.pending]
  | done => simp [ensureStepOne, EnsurePc.pending]

theorem ensureStep_measure_le (now : Int) (r : EnsureRun) (w : Bool) :
    (ensureStep now r w).measure ≤ r.measure := by
  cases w
  · have h := ensureStepOne_calls now r.pcA r.svc r.authCalls
    rcases hE : ensureStepOne now r.pcA r.svc r.authCalls with ⟨pc, st2, calls⟩
    rw [hE] at h
    simp at h
    simp [ensureStep, hE, EnsureRun.measure]
    omega
  · have h := ensureStepOne_calls now r.pcB r.svc r.authCalls
    rcases hE : ensureStepOne now r.pcB r.svc r.authCalls with ⟨pc, st2, calls⟩
    rw [hE] at h
    simp at h
    simp [ensureStep, hE, EnsureRun.measure]
    omega

theorem ensureRunSched_measure_le (now : Int) (sched : List Bool) (r : EnsureRun) :
    (ensureRunSched now r sched).measure ≤ r.measure := by
  induction sched generalizing r with
  | nil => simp [ensureRunSched]
  | cons w ws ih =>
    rw [ensureRunSched]
    exact (ih (ensureStep now r w)).trans (ensureStep_measure_le now r w)

/-!
The claim theorems.
-/

/-- C1 fails as stated: with `auto_refresh = False` (a constructor option of
`BaseService`), a 401 on the first attempt triggers no re-authentication and
no retry — the call fails immediately with `APIError`. -/
theorem C1_counterexample : ¬ claimC1Stated := fun h =>
  absurd (h ⟨some "a", 100, false⟩ 0 (.response 200 Body.empty)
      (.response 200 Body.empty) (.response 200 Body.empty) Body.empty
      (by decide)).1 (by decide)

/-- C1 amended: with `auto_refresh` enabled, a 401 on the first attempt
triggers exactly one further `authenticate` invocation; the call is then
re-issued exactly once (when the re-authentication fails, its
`NetworkError`/`AuthenticationError` propagates instead and no retry is
issued); an error status on the retry fails with `APIError`; and no
execution of `request` ever issues more than two HTTP attempts or more than
one retry re-authentication. -/
theorem C1_retry_once (st : BaseServiceState) (now : Int)
    (eo ro r2 : HttpOutcome) (b : Body)
    (hauto : st.autoRefresh = true)
    (hfirst : 1 ≤ (BaseService.request st now eo ro (.response 401 b) r2).httpAttempts) :
    (BaseService.request st now eo ro (.response 401 b) r2).retryAuthCalls = 1 ∧
    ((BaseService.request st now eo ro (.response 401 b) r2).httpAttempts = 2 ∨
      ∃ e, (BaseService.request st now eo ro (.response 401 b) r2).result
          = Except.error e ∧ (e.isNetwork || e.isAuth) = true) ∧
    (∀ s2 b2, r2 = HttpOutcome.response s2 b2 → raisesForStatus s2 = true →
      (BaseService.request st now eo ro (.response 401 b) r2).httpAttempts = 2 →
      ∃ m, (BaseService.request st now eo ro (.response 401 b) r2).result
        = Except.error (.apiError m)) ∧
    (∀ eo2 ro2 r1b r2b,
      (BaseService.request st now eo2 ro2 r1b r2b).httpAttempts ≤ 2 ∧
      (BaseService.request st now eo2 ro2 r1b r2b).retryAuthCalls ≤ 1) := by
  obtain ⟨st1, k, hpre, heq⟩ := request_attempts_pos hfirst
  have h401 := requestBody_401 st1 now ro r2 b k (hpre.trans hauto)
  rw [heq]
  exact ⟨h401.1, h401.2.1, h401.2.2,
    fun eo2 ro2 r1b r2b => request_bounds st now eo2 ro2 r1b r2b⟩

theorem C1_retry_once_witness :
    (BaseService.request ⟨some "a", 100, true⟩ 0 (.response 200 Body.empty)
        (.response 200 (bodyWithToken "t")) (.response 401 Body.empty)
        (.response 500 Body.empty)).retryAuthCalls = 1 :=
  (C1_retry_once ⟨some "a", 100, true⟩ 0 (.response 200 Body.empty)
      (.response 200 (bodyWithToken "t")) (.response 500 Body.empty) Body.empty
      rfl (by decide)).1

/-- C2 fails as stated: a connection failure of the HTTP call inside
`request` is caught by the handler of `core.py` line 81 and re-raised as
`APIError`, not `NetworkError`. -/
theorem C2_counterexample : ¬ claimC2Stated := fun h =>
  absurd (h ⟨some "a", 100, true⟩ 0 (.response 200 Body.empty)
      (.response 200 Body.empty) (.response 200 Body.empty) "boom"
      (by decide)) (by decide)

/-- C2 amended: a transport-level failure of the HTTP call inside `request`
fails with `APIError` (the handler maps every `RequestException` to
`APIError`); a transport-level failure during the `_ensure_token`
authentication phase fails with `NetworkError`. -/
theorem C2_transport_errors (st : BaseServiceState) (now : Int)
    (eo ro r1 r2 : HttpOutcome) (e : String)
    (hfirst : 1 ≤ (BaseService.request st now eo ro (.transportError e) r2).httpAttempts)
    (hn : BaseService.needsRefresh st now = true) :
    (BaseService.request st now eo ro (.transportError e) r2).result
      = .error (.apiError ("Request failed: " ++ e)) ∧
    (BaseService.request st now (.transportError e) ro r1 r2).result
      = .error (.networkError ("Network error during authentication: " ++ e)) := by
  constructor
  · obtain ⟨st1, k, hpre, heq⟩ := request_attempts_pos hfirst
    rw [heq]
    rfl
  · rw [BaseService.request, if_pos hn]
    rfl

theorem C2_transport_errors_witness :
    (BaseService.request ⟨none, 0, true⟩ 0 (.response 200 (bodyWithToken "t"))
        (.response 200 Body.empty) (.transportError "conn refused")
        (.response 200 Body.empty)).result
      = .error (.apiError ("Request failed: " ++ "conn refused")) ∧
    (BaseService.request ⟨none, 0, true⟩ 0 (.transportError "conn refused")
        (.response 200 Body.empty) (.response 200 Body.empty)
        (.response 200 Body.empty)).result
      = .error (.networkError
          ("Network error during authentication: " ++ "conn refused")) :=
  C2_transport_errors ⟨none, 0, true⟩ 0 (.response 200 (bodyWithToken "t"))
    (.response 200 Body.empty) (.response 200 Body.empty)
    (.response 200 Body.empty) "conn refused" (by decide) (by decide)

/-- C3 fails as stated: `authenticate` calls `raise_for_status()` before
reading the body, so a 401 with body `{"message": "bad credentials"}` is
classified as `NetworkError`, not `AuthenticationError`. -/
theorem C3_counterexample : ¬ claimC3Stated := fun h =>
  absurd (h ⟨none, 0, true⟩ 0
      { Body.empty with message := some "bad credentials" } rfl) (by decide)

/-- C3 amended: a 401 authentication response — however well-formed its
body — makes `authenticate` fail with `NetworkError`;
`AuthenticationError`, carrying the body's `message`, is raised only for a
non-error-status response whose body lacks a truthy `token` field. -/
theorem C3_auth_401 (st : BaseServiceState) (now : Int) (b : Body)
    (hmsg : b.message = some "bad credentials")
    (htok : truthyStr b.token = false) :
    BaseService.authenticate st now (.response 401 b)
      = .error (.networkError "Network error during authentication: HTTPError 401") ∧
    BaseService.authenticate st now (.response 200 b)
      = .error (.authenticationError "bad credentials") := by
  constructor
  · rfl
  · simp [BaseService.authenticate, raisesForStatus, htok, hmsg]

theorem C3_auth_401_witness :
    BaseService.authenticate ⟨none, 0, true⟩ 0
        (.response 401 { Body.empty with message := some "bad credentials" })
      = .error (.networkError "Network error during authentication: HTTPError 401") :=
  (C3_auth_401 ⟨none, 0, true⟩ 0
    { Body.empty with message := some "bad credentials" } rfl rfl).1

/-- C4 fails as stated: on a 2xx body with none of the four token fields,
`TokenManager.generate_token` raises `ValueError` with message
"Token not found in API response" — not `AuthenticationError` with message
"token not found in response". -/
theorem C4_counterexample : ¬ claimC4Stated := fun h =>
  absurd (h ⟨none, none⟩ ⟨none, 0, true⟩ 0 200 Body.empty
      (by decide) (by decide) rfl).1 (by decide)

/-- C4 amended: on a 2xx response with none of the four token fields,
`TokenManager.generate_token` fails with
`ValueError("Token not found in API response")` and
`BaseService.authenticate` fails with `AuthenticationError` carrying the
body's `message` (default "Authentication failed"); neither returns a
null/empty token as success. -/
theorem C4_no_token (stT : TokenManagerState) (stB : BaseServiceState)
    (now : Int) (s : Nat) (b : Body) (hs1 : 200 ≤ s) (hs2 : s < 300)
    (hft : firstTruthy [b.token, b.access_token, b.auth_token, b.key] = none) :
    TokenManager.generate_token stT now (.response s b)
      = .error (.valueError "Token not found in API response") ∧
    BaseService.authenticate stB now (.response s b)
      = .error (.authenticationError (b.message.getD "Authentication failed")) := by
  have hrs : raisesForStatus s = false := by
    simp [raisesForStatus]
    omega
  have htk : truthyStr b.token = false := firstTruthy_head hft
  constructor
  · simp [TokenManager.generate_token, hrs, hft]
  · simp [BaseService.authenticate, hrs, htk]

theorem C4_no_token_witness :
    TokenManager.generate_token ⟨none, none⟩ 0 (.response 204 Body.empty)
      = .error (.valueError "Token not found in API response") :=
  (C4_no_token ⟨none, none⟩ ⟨none, 0, true⟩ 0 204 Body.empty
    (by decide) (by decide) rfl).1

/-- C5 fails as stated: `BaseService.authenticate` reads only the `token`
field, so a 2xx body carrying only `access_token` is rejected by it with
`AuthenticationError` instead of being accepted. -/
theorem C5_counterexample : ¬ claimC5Stated := fun h =>
  absurd (h ⟨none, none⟩ ⟨none, 0, true⟩ 0 "abc" (by decide)) (by decide)

/-- C5 amended: `TokenManager.generate_token` accepts each of the four alias
fields (`token`, `access_token`, `auth_token`, `key`) alone with a non-empty
value; `BaseService.authenticate` accepts only the `token` field and fails
with `AuthenticationError` on a body carrying only one of the other three. -/
theorem C5_alias_fields (stT : TokenManagerState) (stB : BaseServiceState)
    (now : Int) (v : String) (hv : v ≠ "") :
    genOkWith v (TokenManager.generate_token stT now
      (.response 200 (bodyWithToken v))) = true ∧
    genOkWith v (TokenManager.generate_token stT now
      (.response 200 (bodyWithAccess v))) = true ∧
    genOkWith v (TokenManager.generate_token stT now
      (.response 200 (bodyWithAuthTok v))) = true ∧
    genOkWith v (TokenManager.generate_token stT now
      (.response 200 (bodyWithKey v))) = true ∧
    authOkWith v (BaseService.authenticate stB now
      (.response 200 (bodyWithToken v))) = true ∧
    BaseService.authenticate stB now (.response 200 (bodyWithAccess v))
      = .error (.authenticationError "Authentication failed") ∧
    BaseService.authenticate stB now (.response 200 (bodyWithAuthTok v))
      = .error (.authenticationError "Authentication failed") ∧
    BaseService.authenticate stB now (.response 200 (bodyWithKey v))
      = .error (.authenticationError "Authentication failed") := by
  refine ⟨?_, ?_, ?_, ?_, ?_, rfl, rfl, rfl⟩ <;>
    simp [TokenManager.generate_token, BaseService.authenticate, genOkWith,
      authOkWith, raisesForStatus, bodyWithToken, bodyWithAccess,
      bodyWithAuthTok, bodyWithKey, Body.empty, firstTruthy, truthyStr, hv]

theorem C5_alias_fields_witness :
    genOkWith "abc" (TokenManager.generate_token ⟨none, none⟩ 0
      (.response 200 (bodyWithToken "abc"))) = true :=
  (C5_alias_fields ⟨none, none⟩ ⟨none, 0, true⟩ 0 "abc" (by decide)).1

/-- C6 fails as stated: a 2xx body `{"token": "abc", "expires_in_minutes": 0}`
is accepted by `generate_token` with `expires_at` equal to the call time —
not strictly greater than it. -/
theorem C6_counterexample : ¬ claimC6Stated := by
  intro h
  have hc := ((h ⟨none, none⟩ ⟨none, 0, true⟩ 0
      { bodyWithToken "abc" with expires_in_minutes := some 0 }
      ⟨some "abc", some 0⟩ ⟨"abc", 0, 0⟩ ⟨none, 0, true⟩ "").1
      (by decide)).2 0 rfl
  exact absurd hc (by decide)

/-- C6 amended: a successful authentication computes the expiry as the call
time plus the server-supplied duration (`expires_in_minutes` minutes in
`TokenManager`, default 60; `expires_in` seconds in `BaseService`, default
3600), and that expiry is strictly greater than the call time whenever the
supplied duration is positive — in particular with the defaults; a
non-positive supplied duration yields an expiry at or before the call
time. -/
theorem C6_expiry (stT : TokenManagerState) (stB : BaseServiceState)
    (now : Int) (b : Body) (st2 : TokenManagerState) (r : GenResult)
    (st3 : BaseServiceState) (t : String)
    (h1 : TokenManager.generate_token stT now (.response 200 b) = .ok (st2, r))
    (h2 : BaseService.authenticate stB now (.response 200 b) = .ok (st3, t))
    (hm : 0 < b.expires_in_minutes.getD 60)
    (hs : 0 < b.expires_in.getD 3600) :
    st2.expires_at = some (now + 60 * b.expires_in_minutes.getD 60) ∧
    (∀ e2, st2.expires_at = some e2 → now < e2) ∧
    st3.tokenExpiry = now + b.expires_in.getD 3600 ∧
    now < st3.tokenExpiry := by
  rcases hft : firstTruthy [b.token, b.access_token, b.auth_token, b.key] with _ | tk
  · simp [TokenManager.generate_token, raisesForStatus, hft] at h1
  · simp [TokenManager.generate_token, raisesForStatus, hft] at h1
    obtain ⟨hst, hr⟩ := h1
    by_cases htb : truthyStr b.token = true
    · simp [BaseService.authenticate, raisesForStatus, htb] at h2
      obtain ⟨hst3, ht⟩ := h2
      refine ⟨?_, ?_, ?_, ?_⟩
      · rw [← hst]
      · intro e2 he2
        rw [← hst] at he2
        simp at he2
        omega
      · rw [← hst3]
      · rw [← hst3]
        simp
        omega
    · simp [BaseService.authenticate, raisesForStatus, htb] at h2

theorem C6_expiry_witness :
    (⟨some "abc", some 3600⟩ : TokenManagerState).expires_at
        = some (0 + 60 * (bodyWithToken "abc").expires_in_minutes.getD 60) ∧
    (∀ e2, (⟨some "abc", some 3600⟩ : TokenManagerState).expires_at = some e2 →
      (0 : Int) < e2) ∧
    (⟨some "abc", 3600, true⟩ : BaseServiceState).tokenExpiry
        = 0 + (bodyWithToken "abc").expires_in.getD 3600 ∧
    (0 : Int) < (⟨some "abc", 3600, true⟩ : BaseServiceState).tokenExpiry :=
  C6_expiry ⟨none, none⟩ ⟨none, 0, true⟩ 0 (bodyWithToken "abc")
    ⟨some "abc", some 3600⟩ ⟨"abc", 60, 3600⟩ ⟨some "abc", 3600, true⟩ "abc"
    (by decide) (by decide) (by decide) (by decide)

/-- C7: `is_token_valid` is true exactly when the cached token is truthy and
the expiry is known and the current time is strictly before it; it is false
on the empty cache, false right after `check_token_status` clears the cache
on a server "no token" report, and the `_ensure_token` test of
`BaseService` agrees (no refresh needed exactly when the token is truthy
and unexpired). -/
theorem C7_validity (st st0 : TokenManagerState) (stB : BaseServiceState)
    (now n : Int) (b : Body) (hb : b.has_token ≠ some true) :
    (TokenManager.is_token_valid st now = true ↔
      truthyStr st.token = true ∧ ∃ e, st.expires_at = some e ∧ now < e) ∧
    TokenManager.is_token_valid ⟨none, none⟩ now = false ∧
    TokenManager.is_token_valid
      (TokenManager.check_token_status st0 n (.response 200 b)).1 now = false ∧
    (BaseService.needsRefresh stB now = false ↔
      truthyStr stB.token = true ∧ now < stB.tokenExpiry) := by
  refine ⟨?_, rfl, ?_, ?_⟩
  · obtain ⟨tk, ex⟩ := st
    cases tk with
    | none => simp [TokenManager.is_token_valid, truthyStr]
    | some s =>
      cases ex with
      | none => simp [TokenManager.is_token_valid, truthyStr]
      | some e =>
        by_cases hse : s = ""
        · simp [TokenManager.is_token_valid, truthyStr, hse]
        · simp [TokenManager.is_token_valid, truthyStr, hse]
  · simp [TokenManager.check_token_status, raisesForStatus, hb,
      TokenManager.is_token_valid, truthyStr]
  · cases htk : truthyStr stB.token with
    | false => simp [BaseService.needsRefresh, htk]
    | true =>
      simp [BaseService.needsRefresh, htk, not_le]

theorem C7_validity_witness :
    TokenManager.is_token_valid
      (TokenManager.check_token_status ⟨some "a", some 99⟩ 0
        (.response 200 Body.empty)).1 5 = false :=
  (C7_validity ⟨some "a", some 10⟩ ⟨some "a", some 99⟩ ⟨some "a", 99, true⟩ 5 0
    Body.empty (by decide)).2.2.1

/-- C8 fails as stated: `check_token_status` maps a transport failure to a
normally returned `has_token := false` dictionary with default data, rather
than propagating the failure to its caller. -/
theorem C8_counterexample : ¬ claimC8Stated := fun h =>
  h ⟨none, none⟩ 0 "boom" (by decide)

/-- C8 amended: `BaseService.authenticate` propagates a transport failure as
`NetworkError` and `TokenManager.generate_token` re-raises the underlying
`RequestException`, but `TokenManager.check_token_status` catches transport
failures and returns a `has_token := false` status dictionary carrying an
`error` string — with the cached state untouched — instead of raising. -/
theorem C8_propagation (stT : TokenManagerState) (stB : BaseServiceState)
    (now : Int) (e : String) :
    BaseService.authenticate stB now (.transportError e)
      = .error (.networkError ("Network error during authentication: " ++ e)) ∧
    TokenManager.generate_token stT now (.transportError e)
      = .error (.requestException e) ∧
    TokenManager.check_token_status stT now (.transportError e)
      = (stT, ⟨false, none, 0, none, some e⟩) :=
  ⟨rfl, rfl, rfl⟩

/-- C9 fails as stated: the interleaving in which both callers pass the
line-47 check before either completes its `authenticate()` call performs two
Authenticator invocations, not one. -/
theorem C9_counterexample : ¬ claimC9Stated := fun h =>
  absurd (h 0 [false, true, false, true] (by decide) (by decide)) (by decide)

/-- C9 amended: `_ensure_token` performs no single-flight serialization.
With two concurrent callers over an empty cache, the number of Authenticator
invocations is bounded by one per caller (at most 2, never unbounded); a
sequential, non-interleaved execution performs exactly one; and there is an
interleaving — both callers pass the check before either authenticates —
that performs two. -/
theorem C9_no_single_flight :
    (∀ (now : Int) (sched : List Bool),
      (ensureRunSched now initEnsureRun sched).authCalls ≤ 2) ∧
    (∀ now : Int,
      (ensureRunSched now initEnsureRun [false, false, true]).pcA = EnsurePc.done ∧
      (ensureRunSched now initEnsureRun [false, false, true]).pcB = EnsurePc.done ∧
      (ensureRunSched now initEnsureRun [false, false, true]).authCalls = 1) ∧
    ((ensureRunSched 0 initEnsureRun [false, true, false, true]).pcA = EnsurePc.done ∧
     (ensureRunSched 0 initEnsureRun [false, true, false, true]).pcB = EnsurePc.done ∧
     (ensureRunSched 0 initEnsureRun [false, true, false, true]).authCalls = 2) := by
  refine ⟨?_, ?_, by decide, by decide, by decide⟩
  · intro now sched
    have h := ensureRunSched_measure_le now sched initEnsureRun
    have h2 : initEnsureRun.measure = 2 := rfl
    rw [h2] at h
    have h3 : (ensureRunSched now initEnsureRun sched).authCalls
        ≤ (ensureRunSched now initEnsureRun sched).measure :=
      Nat.le_trans (Nat.le_add_right _ _) (Nat.le_add_right _ _)
    exact h3.trans h
  · intro now
    have h1 : BaseService.needsRefresh ⟨none, 0, true⟩ now = true := rfl
    have h2 : BaseService.needsRefresh ⟨some "tok", now + 3600, true⟩ now = false := by
      simp [BaseService.needsRefresh, truthyStr]
    simp [ensureRunSched, ensureStep, ensureStepOne, initEnsureRun, h1, h2]

/-- C10: on a transport failure, `check_token_status` does not raise: it
returns the `has_token := false` dictionary with `token := none`,
`expires_in_minutes := 0` and the error string, and leaves the cached token
and expiry exactly as they were. -/
theorem C10_status_transport (st : TokenManagerState) (now : Int) (e : String) :
    TokenManager.check_token_status st now (.transportError e)
      = (st, ⟨false, none, 0, none, some e⟩) := rfl
